import Mathlib

set_option autoImplicit false

/-!
Shallow embedding of the potensiaAI multi-provider completion core:
the completion contract (`ai_clients/base.py`), the OpenAI and Anthropic
adapters (`ai_clients/openai_client.py`, `ai_clients/anthropic_client.py`),
the generation orchestrator (`ai_tools/writer/generator.py`), the quality
validator (`ai_tools/writer/validator.py`) and the content fixer
(`ai_tools/writer/fixer.py`).

Modelling conventions:
- Python floats are modelled as `ℚ` (the numeric claims concern exact
  values, signs and tier selection, not binary rounding);
- machine calls to the providers are oracles: each adapter attempt is fed
  the provider outcome for that attempt;
- Python exceptions are `Except` errors; `await asyncio.sleep(w)` is
  recorded in an explicit trace of sleep durations;
- Python truthiness of optional strings/ints/floats is modelled explicitly
  (`none`, `""`, `0` are falsy) where the source uses `or` / `if x:`.
-/

/-- Python `needle in hay` on lists of characters: `needle` occurs as a
contiguous substring of `hay`. -/
def containsSub (needle : List Char) : List Char → Bool
  | [] => needle.isEmpty
  | c :: t => needle.isPrefixOf (c :: t) || containsSub needle t

/-- Python `needle in hay` for strings. -/
def strContains (hay needle : String) : Bool :=
  containsSub needle.toList hay.toList

/-- Python `s.lower()` (character-wise lowering; kernel-reducible
replacement for the byte-position-based library function). -/
def pyLower (s : String) : String := String.mk (s.data.map Char.toLower)

/-- Python `s.strip()`: drop leading and trailing whitespace. -/
def pyStrip (s : String) : String :=
  String.mk (((s.data.dropWhile Char.isWhitespace).reverse.dropWhile
    Char.isWhitespace).reverse)

/-- Split a character list at every separator character, keeping empty
pieces (Python `s.split(sep)` semantics). -/
def splitOnP (p : Char → Bool) : List Char → List (List Char)
  | [] => [[]]
  | c :: t =>
    match splitOnP p t with
    | [] => if p c then [[], []] else [[c]]
    | h :: rest => if p c then [] :: h :: rest else (c :: h) :: rest

/-- Join strings with a separator (Python `sep.join(xs)`). -/
def joinSep (sep : String) : List String → String
  | [] => ""
  | [x] => x
  | x :: y :: t => x ++ sep ++ joinSep sep (y :: t)

/-- Python `opt or default` for an optional string (`None` and `""` are falsy). -/
def pyOrStr (o : Option String) (d : String) : String :=
  match o with
  | some v => if v = "" then d else v
  | none => d

/-- Python `opt or default` for an optional int (`None` and `0` are falsy). -/
def pyOrNat (o : Option Nat) (d : Nat) : Nat :=
  match o with
  | some v => if v = 0 then d else v
  | none => d

/-- Python `opt or default` for an optional float (`None` and `0.0` are falsy). -/
def pyOrRat (o : Option ℚ) (d : ℚ) : ℚ :=
  match o with
  | some v => if v = 0 then d else v
  | none => d

/-- `core/config.py` `Settings`: the configuration fields the core reads. -/
structure Settings where
  modelPrimary : String
  modelFallback : String
  maxRetries : Nat
  backoffMin : Nat
  backoffMax : Nat
  defaultTemperature : ℚ
  defaultMaxTokens : Nat

/-- The defaults declared in `core/config.py`. -/
def defaultSettings : Settings :=
  { modelPrimary := "gpt-4o-mini"
    modelFallback := "claude-3-5-sonnet-20241022"
    maxRetries := 3
    backoffMin := 1
    backoffMax := 8
    defaultTemperature := 7/10
    defaultMaxTokens := 2000 }

/-- `ai_clients/base.py` `MessageRole`. -/
inductive MessageRole where
  | system
  | user
  | assistant
deriving DecidableEq

/-- The `.value` string of a `MessageRole`. -/
def MessageRole.value : MessageRole → String
  | .system => "system"
  | .user => "user"
  | .assistant => "assistant"

/-- `ai_clients/base.py` `Message`. -/
structure Message where
  role : MessageRole
  content : String

/-- `ai_clients/base.py` `CompletionRequest` (optional fields are `None` by
default, as in the dataclass). -/
structure CompletionRequest where
  messages : List Message
  model : Option String := none
  max_tokens : Option Nat := none
  temperature : Option ℚ := none
  system_prompt : Option String := none

/-- `ai_clients/base.py` `CompletionResponse` (the opaque `raw_response`
debug payload is not modelled). -/
structure CompletionResponse where
  content : String
  model : String
  input_tokens : Nat
  output_tokens : Nat
  total_tokens : Nat
  cost : ℚ
  provider : String
deriving DecidableEq

/-- `AIClient._format_messages` (`ai_clients/base.py`): prepend the
`system_prompt` (only when truthy) and append the conversation messages as
`(role, content)` pairs in order. -/
def format_messages (req : CompletionRequest) : List (String × String) :=
  (match req.system_prompt with
   | some sp => if sp = "" then [] else [("system", sp)]
   | none => []) ++ req.messages.map (fun m => (m.role.value, m.content))

/-- The provider-call parameter set an adapter assembles before calling the
provider (`api_params` dict in both `complete` implementations). -/
structure ApiParams where
  model : String
  messages : List (String × String)
  max_tokens : Option Nat := none
  max_completion_tokens : Option Nat := none
  temperature : Option ℚ := none
  system : Option String := none

namespace OpenAIClient

/-- `response.usage` of an OpenAI chat completion. -/
structure Usage where
  prompt_tokens : Nat
  completion_tokens : Nat
  total_tokens : Nat
deriving DecidableEq

/-- The fields of a raw OpenAI response the adapter reads:
`response.choices[0].message.content` (may be `None`) and `response.usage`
(may be `None`). -/
structure RawResponse where
  content : Option String
  usage : Option Usage

/-- The static cost table of `OpenAIClient.__init__`, in insertion order,
as (key, input rate, output rate) per million tokens. -/
def costs : List (String × ℚ × ℚ) :=
  [("gpt-4o", 2.50, 10.00),
   ("gpt-4o-mini", 0.150, 0.600),
   ("gpt-4-turbo", 10.00, 30.00),
   ("gpt-4", 30.00, 60.00),
   ("gpt-3.5-turbo", 0.50, 1.50),
   ("o1-preview", 15.00, 60.00),
   ("o1-mini", 3.00, 12.00),
   ("o3-mini", 3.00, 12.00)]

/-- The reasoning-family keywords of `OpenAIClient.is_reasoning_model`. -/
def reasoningKeywords : List String := ["o1-", "o3-", "gpt-5"]

/-- `OpenAIClient.is_reasoning_model`: any keyword occurs in the lowercased
model name. -/
def is_reasoning_model (model : String) : Bool :=
  reasoningKeywords.any (fun k => strContains (pyLower model) k)

/-- `OpenAIClient._calculate_cost`: first cost-table key (in insertion
order) occurring in the lowercased model name; unmatched models cost 0. -/
def calculate_cost (model : String) (input_tokens output_tokens : Nat) : ℚ :=
  match costs.find? (fun kv => strContains (pyLower model) kv.1) with
  | none => 0
  | some kv =>
      (input_tokens : ℚ) / 1000000 * kv.2.1 + (output_tokens : ℚ) / 1000000 * kv.2.2

/-- Model resolution in `OpenAIClient.complete`:
`request.model or settings.MODEL_PRIMARY`. -/
def resolveModel (s : Settings) (req : CompletionRequest) : String :=
  pyOrStr req.model s.modelPrimary

/-- The `api_params` dict built by `OpenAIClient.complete` before the retry
loop: reasoning models get `max_completion_tokens` and no temperature,
standard models get `max_tokens` and `temperature`. -/
def build_api_params (s : Settings) (req : CompletionRequest) : ApiParams :=
  let model := resolveModel s req
  if is_reasoning_model model then
    { model := model
      messages := format_messages req
      max_completion_tokens := some (pyOrNat req.max_tokens 2000) }
  else
    { model := model
      messages := format_messages req
      max_tokens := some (pyOrNat req.max_tokens s.defaultMaxTokens)
      temperature := some (pyOrRat req.temperature s.defaultTemperature) }

/-- The body of the `try` block of `OpenAIClient.complete` applied to one
raw provider response: empty or missing content raises `ValueError`
(an `Except.error` here); otherwise usage counters default to 0 when
`usage` is `None`, `total_tokens` is copied from the provider when `usage`
is present, and the `CompletionResponse` is assembled. -/
def attempt_complete (s : Settings) (req : CompletionRequest) (resp : RawResponse) :
    Except String CompletionResponse :=
  let model := resolveModel s req
  match resp.content with
  | none => .error "Empty response from OpenAI"
  | some c =>
    if c = "" then .error "Empty response from OpenAI"
    else
      let input_tokens := match resp.usage with | some u => u.prompt_tokens | none => 0
      let output_tokens := match resp.usage with | some u => u.completion_tokens | none => 0
      let total_tokens := match resp.usage with
        | some u => u.total_tokens
        | none => input_tokens + output_tokens
      .ok { content := pyStrip c
            model := model
            input_tokens := input_tokens
            output_tokens := output_tokens
            total_tokens := total_tokens
            cost := calculate_cost model input_tokens output_tokens
            provider := "openai" }

/-- Outcome of one provider call inside the retry loop: a response object,
or one of the exception classes the loop distinguishes. -/
inductive CallOutcome where
  | success (resp : RawResponse)
  | rateLimit (msg : String)
  | connectionError (msg : String)
  | apiOther (msg : String)

/-- The retry loop of `OpenAIClient.complete` (`for attempt in
range(settings.MAX_RETRIES)`), fed the provider outcome of each attempt.
Returns the result together with the trace of backoff sleeps. Transient
errors (`RateLimitError`, `APIConnectionError`) sleep
`min(BACKOFF_MIN * 2^attempt, BACKOFF_MAX)` and retry unless on the final
attempt; every other exception (including the `ValueError` raised on empty
content) is re-raised immediately by the `except Exception` arm. -/
def completeAux (s : Settings) (req : CompletionRequest) (outcomes : Nat → CallOutcome) :
    Nat → Nat → Except String CompletionResponse × List Nat
  | _, 0 => (.error "OpenAI completion failed: Maximum retries exceeded", [])
  | attempt, fuel + 1 =>
    match outcomes attempt with
    | .success resp => ((attempt_complete s req resp).map id, [])
    | .rateLimit e | .connectionError e =>
      if attempt < s.maxRetries - 1 then
        let w := min (s.backoffMin * 2 ^ attempt) s.backoffMax
        let rest := completeAux s req outcomes (attempt + 1) fuel
        (rest.1, w :: rest.2)
      else
        (.error ("OpenAI API failed after attempts: " ++ e), [])
    | .apiOther e => (.error e, [])

/-- `OpenAIClient.complete`: run the retry loop from attempt 0. -/
def complete (s : Settings) (req : CompletionRequest) (outcomes : Nat → CallOutcome) :
    Except String CompletionResponse × List Nat :=
  completeAux s req outcomes 0 s.maxRetries

end OpenAIClient

namespace AnthropicClient

/-- One block of `response.content` of an Anthropic message: its `.text`
when the block has a `text` attribute, `none` otherwise. -/
def BlockText := Option String

/-- `response.usage` of an Anthropic message. -/
structure Usage where
  input_tokens : Nat
  output_tokens : Nat
deriving DecidableEq

/-- The fields of a raw Anthropic response the adapter reads. -/
structure RawResponse where
  content : List (Option String)
  usage : Option Usage

/-- The static cost table of `AnthropicClient.__init__`, in insertion
order. -/
def costs : List (String × ℚ × ℚ) :=
  [("claude-3-5-sonnet", 3.00, 15.00),
   ("claude-3-opus", 15.00, 75.00),
   ("claude-3-sonnet", 3.00, 15.00),
   ("claude-3-haiku", 0.25, 1.25)]

/-- `AnthropicClient.is_reasoning_model`: Claude models have no separate
reasoning mode, so this is constantly `false`. -/
def is_reasoning_model (_model : String) : Bool := false

/-- `AnthropicClient._calculate_cost`: first matching cost-table key;
unmatched models default to the `claude-3-5-sonnet` tier. -/
def calculate_cost (model : String) (input_tokens output_tokens : Nat) : ℚ :=
  let kv := match costs.find? (fun kv => strContains (pyLower model) kv.1) with
    | some kv => kv
    | none => ("claude-3-5-sonnet", 3.00, 15.00)
  (input_tokens : ℚ) / 1000000 * kv.2.1 + (output_tokens : ℚ) / 1000000 * kv.2.2

/-- Model resolution in `AnthropicClient.complete`:
`request.model or settings.MODEL_FALLBACK`. -/
def resolveModel (s : Settings) (req : CompletionRequest) : String :=
  pyOrStr req.model s.modelFallback

/-- The system-prompt/message reconciliation loop of
`AnthropicClient.complete`: start from `request.system_prompt`, let each
system-role message overwrite it, and keep the non-system messages in
order. -/
def splitSystem (req : CompletionRequest) : Option String × List (String × String) :=
  req.messages.foldl
    (fun acc m =>
      match m.role with
      | .system => (some m.content, acc.2)
      | _ => (acc.1, acc.2 ++ [(m.role.value, m.content)]))
    (req.system_prompt, [])

/-- The `api_params` dict built by `AnthropicClient.complete`: `max_tokens`
always, `system` only when the reconciled system prompt is truthy, and
`temperature` from the request when it is not `None` (a `0.0` request
temperature is kept), else the configured default. -/
def build_api_params (s : Settings) (req : CompletionRequest) : ApiParams :=
  let sys := (splitSystem req).1
  { model := resolveModel s req
    messages := (splitSystem req).2
    max_tokens := some (pyOrNat req.max_tokens s.defaultMaxTokens)
    system := match sys with
      | some sp => if sp = "" then none else some sp
      | none => none
    temperature := some (req.temperature.getD s.defaultTemperature) }

/-- The text concatenation loop over `response.content` blocks. -/
def concatBlocks (blocks : List (Option String)) : String :=
  blocks.foldl (fun acc b => acc ++ b.getD "") ""

/-- The body of the `try` block of `AnthropicClient.complete` applied to
one raw provider response: empty concatenated text raises `ValueError`;
usage counters default to 0 when `usage` is `None`; `total_tokens` is
computed as `input_tokens + output_tokens`. -/
def attempt_complete (s : Settings) (req : CompletionRequest) (resp : RawResponse) :
    Except String CompletionResponse :=
  let model := resolveModel s req
  let c := concatBlocks resp.content
  if c = "" then .error "Empty response from Anthropic"
  else
    let input_tokens := match resp.usage with | some u => u.input_tokens | none => 0
    let output_tokens := match resp.usage with | some u => u.output_tokens | none => 0
    .ok { content := pyStrip c
          model := model
          input_tokens := input_tokens
          output_tokens := output_tokens
          total_tokens := input_tokens + output_tokens
          cost := calculate_cost model input_tokens output_tokens
          provider := "anthropic" }

/-- Outcome of one provider call inside the Anthropic retry loop. -/
inductive CallOutcome where
  | success (resp : RawResponse)
  | rateLimit (msg : String)
  | connectionError (msg : String)
  | apiOther (msg : String)

/-- The retry loop of `AnthropicClient.complete`, identical in structure to
the OpenAI one. -/
def completeAux (s : Settings) (req : CompletionRequest) (outcomes : Nat → CallOutcome) :
    Nat → Nat → Except String CompletionResponse × List Nat
  | _, 0 => (.error "Anthropic completion failed: Maximum retries exceeded", [])
  | attempt, fuel + 1 =>
    match outcomes attempt with
    | .success resp => ((attempt_complete s req resp).map id, [])
    | .rateLimit e | .connectionError e =>
      if attempt < s.maxRetries - 1 then
        let w := min (s.backoffMin * 2 ^ attempt) s.backoffMax
        let rest := completeAux s req outcomes (attempt + 1) fuel
        (rest.1, w :: rest.2)
      else
        (.error ("Anthropic API failed after attempts: " ++ e), [])
    | .apiOther e => (.error e, [])

/-- `AnthropicClient.complete`: run the retry loop from attempt 0. -/
def complete (s : Settings) (req : CompletionRequest) (outcomes : Nat → CallOutcome) :
    Except String CompletionResponse × List Nat :=
  completeAux s req outcomes 0 s.maxRetries

end AnthropicClient

namespace Generator

/-- `generator.is_reasoning_model` (same keyword test as the OpenAI
adapter). -/
def is_reasoning_model (model_name : String) : Bool :=
  ["o1-", "o3-", "gpt-5"].any (fun k => strContains (pyLower model_name) k)

/-- The fixed model sequence of `generate_content`:
`["GPT"] * settings.MAX_RETRIES + ["Claude"]`. -/
def model_sequence (s : Settings) : List String :=
  List.replicate s.maxRetries "GPT" ++ ["Claude"]

/-- The backoff of `generate_content` for 1-based attempt index `attempt`:
`min(BACKOFF_MIN * 2 ** (attempt - 1), BACKOFF_MAX)`. -/
def backoff (s : Settings) (attempt : Nat) : Nat :=
  min (s.backoffMin * 2 ^ (attempt - 1)) s.backoffMax

/-- Python truthiness of a `try_model` result (`if content:`): a non-empty
string. -/
def truthy : Option String → Bool
  | some c => c ≠ ""
  | none => false

/-- Result of a `generate_content` run: the outcome (`RuntimeError` message
or content) together with the trace of backoff sleeps. -/
structure GenResult where
  outcome : Except String String
  sleeps : List Nat

/-- The execution loop of `generate_content` over the model sequence:
`results i` is what `try_model` returned at 1-based attempt `i`; a falsy
result sleeps the computed backoff unless the attempt is the final
sequence entry; a truthy result returns its content; exhausting the
sequence raises `RuntimeError` naming the topic. `total` is the sequence
length and `fuel` the number of remaining entries. -/
def genLoop (s : Settings) (topic : String) (results : Nat → Option String) (total : Nat) :
    Nat → Nat → GenResult
  | _, 0 => { outcome := .error ("All model attempts failed for topic: " ++ topic), sleeps := [] }
  | attempt, fuel + 1 =>
    match results attempt with
    | some c =>
      if c ≠ "" then { outcome := .ok c, sleeps := [] }
      else
        let rest := genLoop s topic results total (attempt + 1) fuel
        if attempt < total then { rest with sleeps := backoff s attempt :: rest.sleeps } else rest
    | none =>
      let rest := genLoop s topic results total (attempt + 1) fuel
      if attempt < total then { rest with sleeps := backoff s attempt :: rest.sleeps } else rest

/-- `generate_content`: refine the topic (any refinement failure falls back
to the raw topic), then run the loop over the model sequence. Returns the
working topic together with the run result. -/
def generate_content (s : Settings) (topic : String) (refined : Except String String)
    (results : Nat → Option String) : String × GenResult :=
  let generated_topic := match refined with | .ok t => t | .error _ => topic
  let n := (model_sequence s).length
  (generated_topic, genLoop s generated_topic results n 1 n)

end Generator

/-- A parsed JSON value (what `json.loads` can produce). -/
inductive JValue where
  | jnull
  | jbool (b : Bool)
  | jnum (n : Int)
  | jstr (s : String)
  | jarr (xs : List JValue)
  | jobj (fields : List (String × JValue))

mutual

/-- Structural equality of JSON values (Python `==`). -/
def jeqB : JValue → JValue → Bool
  | .jnull, .jnull => true
  | .jbool a, .jbool b => a == b
  | .jnum a, .jnum b => a == b
  | .jstr a, .jstr b => a == b
  | .jarr xs, .jarr ys => jeqListB xs ys
  | .jobj xs, .jobj ys => jeqFieldsB xs ys
  | _, _ => false

/-- Structural equality of JSON arrays. -/
def jeqListB : List JValue → List JValue → Bool
  | [], [] => true
  | x :: xs, y :: ys => jeqB x y && jeqListB xs ys
  | _, _ => false

/-- Structural equality of JSON object field lists. -/
def jeqFieldsB : List (String × JValue) → List (String × JValue) → Bool
  | [], [] => true
  | (k1, v1) :: xs, (k2, v2) :: ys => k1 == k2 && jeqB v1 v2 && jeqFieldsB xs ys
  | _, _ => false

end

/-- Python dict lookup `d[k]` / `k in d` on a parsed JSON object. -/
def jlookup (fields : List (String × JValue)) (k : String) : Option JValue :=
  (fields.find? (fun p => p.1 == k)).map (fun p => p.2)

namespace Validator

/-- Outcome of one provider call inside `validate_content`'s retry loop:
the message content of the first chat choice (possibly `None`), or an
exception. -/
inductive VAttempt where
  | ok (content : Option String)
  | exn (msg : String)

/-- Python `not result or not result.strip()`: the response text is missing
or whitespace-only. -/
def isBlank : Option String → Bool
  | none => true
  | some s => pyStrip s = ""

/-- The local `max_retries = 3` of `validate_content`. -/
def vMaxRetries : Nat := 3

/-- The legacy flat fields the success path of `validate_content` adds
(`grammar_score`, `human_score`, `seo_score`, `suggestions`). -/
structure VLegacy where
  grammar_score : JValue
  human_score : JValue
  seo_score : JValue
  suggestions : List JValue

/-- A dict returned by `validate_content`. Optional fields model key
presence: only the exception path has `error`, only the degraded paths have
`raw_output`, and only the success path has the legacy flat fields. -/
structure VDict where
  error : Option String := none
  scores_grammar : JValue
  scores_human : JValue
  scores_seo : JValue
  has_faq : JValue
  issues : JValue
  raw_output : Option String := none
  legacy : Option VLegacy := none

/-- The degraded dict returned when every retry produced a blank response:
zeroed scores, `has_faq` false, an empty issues list, empty raw output. -/
def emptyDegraded : VDict :=
  { scores_grammar := .jnum 0
    scores_human := .jnum 0
    scores_seo := .jnum 0
    has_faq := .jbool false
    issues := .jarr []
    raw_output := some "" }

/-- The degraded dict returned when the API call failed on the last
attempt. -/
def errorDict (e : String) : VDict :=
  { error := some e
    scores_grammar := .jnum 0
    scores_human := .jnum 0
    scores_seo := .jnum 0
    has_faq := .jbool false
    issues := .jarr [.jobj [("type", .jstr "validation_error"),
                            ("message", .jstr "검증 중 오류가 발생했습니다.")]]
    raw_output := some "" }

/-- The degraded dict of the three parse-failure paths: zeroed scores,
`has_faq` false, a single issue of type `parse_error`, and the raw model
output. -/
def parseErrorDict (msg raw : String) : VDict :=
  { scores_grammar := .jnum 0
    scores_human := .jnum 0
    scores_seo := .jnum 0
    has_faq := .jbool false
    issues := .jarr [.jobj [("type", .jstr "parse_error"), ("message", .jstr msg)]]
    raw_output := some raw }

/-- The retry loop of `validate_content`: blank responses and exceptions
retry until the bound, then degrade; a non-blank response breaks out with
the raw text. -/
def retryPhase (attempts : Nat → VAttempt) : Nat → Nat → Sum VDict String
  | _, 0 => Sum.inl emptyDegraded
  | attempt, fuel + 1 =>
    match attempts attempt with
    | .ok content =>
      if isBlank content then
        if attempt < vMaxRetries - 1 then retryPhase attempts (attempt + 1) fuel
        else Sum.inl emptyDegraded
      else Sum.inr (content.getD "")
    | .exn e =>
      if attempt < vMaxRetries - 1 then retryPhase attempts (attempt + 1) fuel
      else Sum.inl (errorDict e)

/-- The prefix of `cs` up to and including its last `\x7d` (assuming one
occurs). -/
def takeToLastRB : List Char → List Char
  | [] => []
  | c :: t =>
    if t.contains '\x7d' then c :: takeToLastRB t
    else if c = '\x7d' then [c] else []

/-- The semantics of `re.search(r'\x7b[\s\S]*\x7d', result)`: the span from
the first `\x7b` that is followed by some `\x7d` up to the last `\x7d` of
the text (the `[\s\S]*` is greedy). -/
def extractSpan : List Char → Option (List Char)
  | [] => none
  | c :: t =>
    if c = '\x7b' ∧ t.contains '\x7d' then some (c :: takeToLastRB t)
    else extractSpan t

/-- The balanced-brace scan demanded by the spec's words: consume up to the
brace that closes the object opened at depth 1 (`depth` counts currently
open braces). -/
def matchBalanced : Nat → List Char → Option (List Char)
  | _, [] => none
  | depth, c :: t =>
    if c = '\x7d' then
      if depth = 1 then some [c] else (matchBalanced (depth - 1) t).map (c :: ·)
    else if c = '\x7b' then (matchBalanced (depth + 1) t).map (c :: ·)
    else (matchBalanced depth t).map (c :: ·)

/-- Modelled from the spec's words ("locate the first balanced JSON object
in the raw text"), for comparison with the code's `extractSpan`: the span
from the first `\x7b` to its matching closing `\x7d`. -/
def firstBalancedJsonObject : List Char → Option (List Char)
  | [] => none
  | c :: t =>
    if c = '\x7b' then (matchBalanced 1 t).map (c :: ·)
    else firstBalancedJsonObject t

/-- The five required keys of the validator's JSON contract. -/
def requiredKeys : List String :=
  ["grammar_score", "human_score", "seo_score", "has_faq", "suggestions"]

/-- Python iteration over a JSON value (`for item in x`): lists iterate
their items, strings their characters, dicts their keys; other values raise
`TypeError`. -/
def pyIter : JValue → Except String (List JValue)
  | .jarr xs => .ok xs
  | .jstr s => .ok (s.toList.map (fun c => .jstr (String.mk [c])))
  | .jobj fs => .ok (fs.map (fun p => .jstr p.1))
  | _ => .error "TypeError: object is not iterable"

/-- The legacy-suggestions comprehension
`[item["message"] if isinstance(item, dict) else item for item in ...]`;
a dict item without a `message` key raises `KeyError`. -/
def legacySuggestions (items : List JValue) : Except String (List JValue) :=
  items.mapM (fun item =>
    match item with
    | .jobj fs =>
      match jlookup fs "message" with
      | some v => .ok v
      | none => .error "KeyError: message"
    | v => .ok v)

/-- The parsing phase of `validate_content` on the raw response text
`result`, with `json.loads` supplied as an oracle `jsonLoads` (the span
always starts with `\x7b`, so a successful parse is an object): extract the
greedy brace span, parse it, check the required keys, and build the
structured response carrying both the structured and the legacy views.
Degraded parse failures are normal returns; `Except.error` models the
uncaught exceptions of the success path's comprehension. -/
def parsePhase (jsonLoads : String → Except String (List (String × JValue)))
    (result : String) : Except String VDict :=
  match extractSpan result.toList with
  | none => .ok (parseErrorDict "응답 파싱 실패" result)
  | some span =>
    let result_clean := pyStrip (String.mk span)
    match jsonLoads result_clean with
    | .error e => .ok (parseErrorDict ("JSON 파싱 실패: " ++ e) result)
    | .ok validated_data =>
      if requiredKeys.all (fun k => (jlookup validated_data k).isSome) then
        let get := fun k => (jlookup validated_data k).getD .jnull
        match pyIter (get "suggestions") with
        | .error e => .error e
        | .ok items =>
          match legacySuggestions items with
          | .error e => .error e
          | .ok suggs =>
            .ok { scores_grammar := get "grammar_score"
                  scores_human := get "human_score"
                  scores_seo := get "seo_score"
                  has_faq := get "has_faq"
                  issues := get "suggestions"
                  legacy := some { grammar_score := get "grammar_score"
                                   human_score := get "human_score"
                                   seo_score := get "seo_score"
                                   suggestions := suggs } }
      else .ok (parseErrorDict "응답 구조 오류" result)

/-- `validate_content`: the retry loop followed by the parsing phase. -/
def validate_content (jsonLoads : String → Except String (List (String × JValue)))
    (attempts : Nat → VAttempt) : Except String VDict :=
  match retryPhase attempts 0 vMaxRetries with
  | Sum.inl d => .ok d
  | Sum.inr result => parsePhase jsonLoads result

end Validator

namespace Fixer

/-- Does `cs` contain three consecutive backticks? -/
def hasTriple : List Char → Bool
  | [] => false
  | c :: t => (c = '\x60' ∧ t.take 2 = ['\x60', '\x60']) || hasTriple t

/-- Drop up to and including the first occurrence of three consecutive
backticks. -/
def dropThroughTriple : List Char → List Char
  | [] => []
  | c :: t => if c = '\x60' ∧ t.take 2 = ['\x60', '\x60'] then t.drop 2 else dropThroughTriple t

/-- Fuel-indexed scan for `stripCodeBlocks` (structural recursion on the
fuel; the caller passes the input length, which bounds the number of scan
steps since every step consumes at least one character). -/
def stripCodeBlocksAux : Nat → List Char → List Char
  | 0, _ => []
  | _, [] => []
  | fuel + 1, c :: t =>
    if c = '\x60' ∧ t.take 2 = ['\x60', '\x60'] ∧ hasTriple (t.drop 2) then
      stripCodeBlocksAux fuel (dropThroughTriple (t.drop 2))
    else c :: stripCodeBlocksAux fuel t

/-- The semantics of `re.sub(r'\x60\x60\x60[\s\S]*?\x60\x60\x60', '', content)`:
each fenced code block (from a triple backtick to the next one) is removed;
an unmatched opening fence is kept. -/
def stripCodeBlocks (cs : List Char) : List Char :=
  stripCodeBlocksAux cs.length cs

/-- The markdown punctuation removed by
`re.sub(r'[#*\x60\[\]\(\)]', '', ...)`. -/
def mdChars : List Char := ['#', '*', '\x60', '[', ']', '(', ')']

/-- Remove the markdown punctuation characters. -/
def stripMd (cs : List Char) : List Char :=
  cs.filter (fun c => !mdChars.contains c)

/-- Python `s.split()`: split on whitespace runs, dropping empty pieces. -/
def pyWords (s : String) : List String :=
  ((splitOnP Char.isWhitespace s.data).map String.mk).filter (fun w => w ≠ "")

/-- Fuel-indexed scan for `countSub` (structural recursion on the fuel; a
non-empty needle makes every step consume at least one character, so the
hay length bounds the number of steps). -/
def countSubAux (needle : List Char) : Nat → List Char → Nat
  | 0, _ => 0
  | _, [] => 0
  | fuel + 1, c :: t =>
    if needle.isPrefixOf (c :: t) then 1 + countSubAux needle fuel ((c :: t).drop needle.length)
    else countSubAux needle fuel t

/-- Python `hay.count(needle)`: non-overlapping occurrences, scanning left
to right. -/
def countSub (needle : List Char) (hay : List Char) : Nat :=
  if needle = [] then hay.length + 1
  else countSubAux needle hay.length hay

/-- Round half to even at the integers (Python `round(x)` on an exact
value). -/
def roundHalfEven (q : ℚ) : ℤ :=
  let f := ⌊q⌋
  let r := q - f
  if r < 1/2 then f
  else if 1/2 < r then f + 1
  else if f % 2 = 0 then f else f + 1

/-- Python `round(x, 2)`. -/
def round2 (q : ℚ) : ℚ := (roundHalfEven (q * 100) : ℚ) / 100

/-- `calculate_keyword_density` (`ai_tools/writer/fixer.py`): strip fenced
code blocks and markdown punctuation, count case-insensitive occurrences of
the keyphrase, divide by the word count, times 100, rounded to two
decimals; empty keyphrase/content or zero words give 0. -/
def calculate_keyword_density (content keyphrase : String) : ℚ :=
  if keyphrase = "" ∨ content = "" then 0
  else
    let content_no_code := stripCodeBlocks content.toList
    let clean_text := stripMd content_no_code
    let total_words := (pyWords (String.mk clean_text)).length
    if total_words = 0 then 0
    else
      let keyword_count :=
        countSub ((pyLower keyphrase).data) (clean_text.map Char.toLower)
      round2 ((keyword_count : ℚ) / (total_words : ℚ) * 100)

/-- Modelled from the spec's words for the refinement comparison of the
density formula: "the case-insensitive occurrence count of the focus phrase
in the text obtained by stripping fenced code blocks and markdown
punctuation, divided by the word count of that stripped text, times 100,
rounded to two decimals". -/
def keywordDensitySpec (content keyphrase : String) : ℚ :=
  let stripped := stripMd (stripCodeBlocks content.toList)
  let occurrences := countSub ((pyLower keyphrase).data) (stripped.map Char.toLower)
  let words := (pyWords (String.mk stripped)).length
  round2 ((occurrences : ℚ) / (words : ℚ) * 100)

/-- The issue-type extraction of `extract_fix_needs`: a dict item with a
`type` key contributes `item['type']`. -/
def issue_type : JValue → Option JValue
  | .jobj fs => jlookup fs "type"
  | _ => none

/-- The `scores` sub-dict of a report (each dimension optionally
present). -/
structure FScores where
  grammar : Option Int := none
  human : Option Int := none
  seo : Option Int := none

/-- A validation-report dict as the fixer reads it. Optional fields model
key presence; per the data model, scores are integers and `has_faq` a
boolean when present. -/
structure VReport where
  issues : List JValue := []
  has_faq : Bool := false
  scores : Option FScores := none
  grammar_score : Option Int := none
  human_score : Option Int := none
  seo_score : Option Int := none

/-- The effective grammar score `scores.get('grammar',
report.get('grammar_score', 10))` read by `extract_fix_needs`. -/
def effGrammar (r : VReport) : Int :=
  ((r.scores.bind FScores.grammar).getD (r.grammar_score.getD 10))

/-- The effective human score. -/
def effHuman (r : VReport) : Int :=
  ((r.scores.bind FScores.human).getD (r.human_score.getD 10))

/-- The effective seo score. -/
def effSeo (r : VReport) : Int :=
  ((r.scores.bind FScores.seo).getD (r.seo_score.getD 10))

/-- `extract_fix_needs` (`ai_tools/writer/fixer.py`): issue types from the
issues list, then `faq_missing` when `has_faq` is falsy, then one flag per
effective score below 7, each appended only when not already present. -/
def extract_fix_needs (r : VReport) : List JValue :=
  let fix_needs := r.issues.filterMap issue_type
  let fix_needs :=
    if !r.has_faq ∧ !fix_needs.any (jeqB (.jstr "faq_missing")) then
      fix_needs ++ [.jstr "faq_missing"]
    else fix_needs
  let fix_needs :=
    if effGrammar r < 7 ∧ !fix_needs.any (jeqB (.jstr "grammar_improvement")) then
      fix_needs ++ [.jstr "grammar_improvement"]
    else fix_needs
  let fix_needs :=
    if effHuman r < 7 ∧ !fix_needs.any (jeqB (.jstr "humanize_content")) then
      fix_needs ++ [.jstr "humanize_content"]
    else fix_needs
  if effSeo r < 7 ∧ !fix_needs.any (jeqB (.jstr "seo_optimization")) then
    fix_needs ++ [.jstr "seo_optimization"]
  else fix_needs

/-- `re.sub(r' +', ' ', ...)`: collapse runs of spaces. -/
def collapseSpaces : List Char → List Char
  | [] => []
  | [c] => [c]
  | c1 :: c2 :: t =>
    if c1 = ' ' ∧ c2 = ' ' then collapseSpaces (c2 :: t)
    else c1 :: collapseSpaces (c2 :: t)

/-- `re.sub(r'\n\x7b3,\x7d', '\n\n', ...)`: runs of three or more newlines
become two (`k` counts pending newlines). -/
def collapseNLAux : Nat → List Char → List Char
  | k, [] => List.replicate (min k 2) '\n'
  | k, c :: t =>
    if c = '\n' then collapseNLAux (k + 1) t
    else List.replicate (min k 2) '\n' ++ c :: collapseNLAux 0 t

/-- Collapse newline runs of length three or more to two. -/
def collapseNewlines (cs : List Char) : List Char := collapseNLAux 0 cs

/-- `re.sub(r'(?<!\x60)\x60(?!\x60)', '', ...)`: remove every backtick whose
original neighbours are not backticks (`prev` is the original previous
character). -/
def stripLoneBackticks (prev : Option Char) : List Char → List Char
  | [] => []
  | c :: t =>
    if c = '\x60' ∧ prev ≠ some '\x60' ∧ t.head? ≠ some '\x60' then
      stripLoneBackticks (some c) t
    else c :: stripLoneBackticks (some c) t

/-- Python `line.rstrip()`. -/
def rstripLine (s : String) : String :=
  String.mk ((s.toList.reverse.dropWhile Char.isWhitespace).reverse)

/-- `post_process_content` (`ai_tools/writer/fixer.py`): collapse repeated
spaces and blank lines, drop lone backticks, strip trailing line
whitespace, and strip the whole text. -/
def post_process_content (content : String) : String :=
  let c1 := String.mk (collapseSpaces content.toList)
  let c2 := String.mk (collapseNewlines c1.toList)
  let c3 := String.mk (stripLoneBackticks none c2.toList)
  let lines := ((splitOnP (fun c => c = '\n') c3.data).map String.mk).map rstripLine
  pyStrip (joinSep "\n" lines)

/-- Skip one run of whitespace (`\s*` before a non-whitespace literal). -/
def skipWs (cs : List Char) : List Char := cs.dropWhile Char.isWhitespace

/-- Case-insensitive literal match, returning the rest on success. -/
def matchLit : List Char → List Char → Option (List Char)
  | [], cs => some cs
  | _ :: _, [] => none
  | p :: pt, c :: ct => if p.toLower = c.toLower then matchLit pt ct else none

/-- Does the FAQ-heading pattern
`(?:##\s*FAQ|##\s*자주\s*묻는\s*질문)` (IGNORECASE) match at this
position? -/
def faqAt (cs : List Char) : Bool :=
  match matchLit ['#', '#'] cs with
  | none => false
  | some rest =>
    let rest := skipWs rest
    (matchLit ['F', 'A', 'Q'] rest).isSome ||
    (match matchLit ['자', '주'] rest with
     | some r2 =>
       match matchLit ['묻', '는'] (skipWs r2) with
       | some r3 => (matchLit ['질', '문'] (skipWs r3)).isSome
       | none => false
     | none => false)

/-- `re.search` of the FAQ-heading pattern anywhere in the text. -/
def hasFaqHeading (s : String) : Bool :=
  go s.toList
where
  /-- Try the pattern at every position. -/
  go : List Char → Bool
    | [] => false
    | c :: t => faqAt (c :: t) || go t

/-- Outcome of the single provider call of `fix_content`: the message
content (possibly `None`) or an exception. -/
inductive FixOutcome where
  | ok (content : Option String)
  | exn (msg : String)

/-- The dict returned by `fix_content`, together with whether the provider
call was issued (the observable side effect the short-circuit avoids). -/
structure FixResult where
  fixed_content : String
  fix_summary : List String
  added_FAQ : Bool
  keyword_density : ℚ
  provider_called : Bool

/-- `fix_content` (`ai_tools/writer/fixer.py`): derive the fix-needs list;
short-circuit (no provider call) when it is empty and the flat
`grammar_score` (default 0) is at least 8; otherwise issue the provider
call: an exception or `None` content (whose `.strip()` raises) returns the
original content with a failure note, empty text returns the original with
an error note, and non-empty text is post-processed, FAQ-checked and
density-measured. -/
def fix_content (content : String) (r : VReport) (focus_keyphrase : String)
    (provider : FixOutcome) : FixResult :=
  let fix_needs := extract_fix_needs r
  if fix_needs.isEmpty ∧ 8 ≤ r.grammar_score.getD 0 then
    { fixed_content := content
      fix_summary := ["콘텐츠 품질이 우수하여 수정 불필요"]
      added_FAQ := r.has_faq
      keyword_density := calculate_keyword_density content focus_keyphrase
      provider_called := false }
  else
    match provider with
    | .exn e =>
      { fixed_content := content
        fix_summary := ["교정 실패: " ++ e]
        added_FAQ := false
        keyword_density := calculate_keyword_density content focus_keyphrase
        provider_called := true }
    | .ok none =>
      { fixed_content := content
        fix_summary := ["교정 실패: AttributeError"]
        added_FAQ := false
        keyword_density := calculate_keyword_density content focus_keyphrase
        provider_called := true }
    | .ok (some raw) =>
      let fixed0 := pyStrip raw
      if fixed0 = "" then
        { fixed_content := content
          fix_summary := ["OpenAI 응답 오류 - 원본 반환"]
          added_FAQ := false
          keyword_density := calculate_keyword_density content focus_keyphrase
          provider_called := true }
      else
        let fixed := post_process_content fixed0
        let had_faq := r.has_faq
        let now_has_faq := hasFaqHeading fixed
        let added_faq := !had_faq && now_has_faq
        let final_density := calculate_keyword_density fixed focus_keyphrase
        let fix_summary :=
          (if added_faq then ["FAQ 섹션 자동 추가"] else []) ++
          (if fix_needs.any (jeqB (.jstr "grammar_improvement")) then
            ["문법 및 가독성 개선"] else []) ++
          (if fix_needs.any (jeqB (.jstr "humanize_content")) then
            ["AI 탐지율 감소 (인간 문체 적용)"] else []) ++
          (if fix_needs.any (jeqB (.jstr "seo_optimization")) then
            ["SEO 최적화 적용"] else []) ++
          (if focus_keyphrase ≠ "" then
            ["키워드 밀도 조정: " ++ toString final_density ++ "%"] else []) ++
          (if focus_keyphrase ≠ "" ∧ (final_density < 1.5 ∨ 2.5 < final_density) then
            ["[주의] 키워드 밀도 범위 초과 (" ++ toString final_density ++ "%) - 수동 조정 권장"]
          else [])
        { fixed_content := fixed
          fix_summary := if fix_summary.isEmpty then ["콘텐츠 전반적 품질 개선"] else fix_summary
          added_FAQ := added_faq
          keyword_density := final_density
          provider_called := true }

/-- Concrete scenario D content: after stripping the heading marker, 100
words of which the 2-word focus phrase accounts for exactly two
case-insensitive occurrences. -/
def densityDemo : String :=
  "# " ++ joinSep " "
    (["Data science"] ++ List.replicate 96 "word" ++ ["data Science"])

end Fixer


/-! ## Helper lemmas -/

theorem openai_rates_nonneg :
    ∀ kv ∈ OpenAIClient.costs, 0 ≤ kv.2.1 ∧ 0 ≤ kv.2.2 := by
  intro kv h
  fin_cases h <;> constructor <;> norm_num

theorem anthropic_rates_nonneg :
    ∀ kv ∈ AnthropicClient.costs, 0 ≤ kv.2.1 ∧ 0 ≤ kv.2.2 := by
  intro kv h
  fin_cases h <;> constructor <;> norm_num

theorem openai_calculate_cost_eq (m : String) (kv : String × ℚ × ℚ) (i o : Nat)
    (h : OpenAIClient.costs.find? (fun kv => strContains (pyLower m) kv.1) = some kv) :
    OpenAIClient.calculate_cost m i o =
      (i : ℚ) / 1000000 * kv.2.1 + (o : ℚ) / 1000000 * kv.2.2 := by
  unfold OpenAIClient.calculate_cost
  rw [h]

theorem openai_cost_nonneg (m : String) (i o : Nat) :
    0 ≤ OpenAIClient.calculate_cost m i o := by
  cases h : OpenAIClient.costs.find? (fun kv => strContains (pyLower m) kv.1) with
  | none =>
    unfold OpenAIClient.calculate_cost
    rw [h]
  | some kv =>
    rw [openai_calculate_cost_eq m kv i o h]
    have hr := openai_rates_nonneg kv (List.mem_of_find?_eq_some h)
    have h1 : (0 : ℚ) ≤ (i : ℚ) / 1000000 := by positivity
    have h2 : (0 : ℚ) ≤ (o : ℚ) / 1000000 := by positivity
    have := mul_nonneg h1 hr.1
    have := mul_nonneg h2 hr.2
    linarith

theorem anthropic_cost_nonneg (m : String) (i o : Nat) :
    0 ≤ AnthropicClient.calculate_cost m i o := by
  have h1 : (0 : ℚ) ≤ (i : ℚ) / 1000000 := by positivity
  have h2 : (0 : ℚ) ≤ (o : ℚ) / 1000000 := by positivity
  unfold AnthropicClient.calculate_cost
  cases h : AnthropicClient.costs.find? (fun kv => strContains (pyLower m) kv.1) with
  | none =>
    show (0:ℚ) ≤ (i : ℚ) / 1000000 * 3.00 + (o : ℚ) / 1000000 * 15.00
    positivity
  | some kv =>
    have hr := anthropic_rates_nonneg kv (List.mem_of_find?_eq_some h)
    have := mul_nonneg h1 hr.1
    have := mul_nonneg h2 hr.2
    show (0:ℚ) ≤ (i : ℚ) / 1000000 * kv.2.1 + (o : ℚ) / 1000000 * kv.2.2
    linarith

/-! ## C1 -/

/-- C1 counterexample: the OpenAI adapter copies the provider-reported
`usage.total_tokens` verbatim, so a successful response can carry
`total_tokens = 3` while `input_tokens + output_tokens = 2`. -/
theorem c1_total_tokens_counterexample :
    (OpenAIClient.attempt_complete defaultSettings { messages := [] }
        { content := some "hello"
          usage := some { prompt_tokens := 1, completion_tokens := 1, total_tokens := 3 } }).map
      (fun r => (r.total_tokens, r.input_tokens, r.output_tokens)) =
      .ok (3, 1, 1) ∧ (3 : Nat) ≠ 1 + 1 :=
  ⟨rfl, by decide⟩

/-- C1 amended: every successful adapter response has non-negative cost;
the Anthropic adapter always satisfies `total_tokens = input_tokens +
output_tokens`; the OpenAI adapter satisfies it when the provider omits
usage, and otherwise copies the provider's three counters verbatim (so the
identity holds exactly when the provider reports consistent usage). -/
theorem c1_total_tokens_cost :
    (∀ (s : Settings) (req : CompletionRequest) (resp : OpenAIClient.RawResponse)
        (r : CompletionResponse),
      OpenAIClient.attempt_complete s req resp = .ok r →
      0 ≤ r.cost ∧
      (resp.usage = none → r.total_tokens = r.input_tokens + r.output_tokens) ∧
      (∀ u, resp.usage = some u →
        r.total_tokens = u.total_tokens ∧ r.input_tokens = u.prompt_tokens ∧
        r.output_tokens = u.completion_tokens)) ∧
    (∀ (s : Settings) (req : CompletionRequest) (resp : AnthropicClient.RawResponse)
        (r : CompletionResponse),
      AnthropicClient.attempt_complete s req resp = .ok r →
      r.total_tokens = r.input_tokens + r.output_tokens ∧ 0 ≤ r.cost) := by
  constructor
  · intro s req resp r h
    obtain ⟨content, usage⟩ := resp
    cases content with
    | none => exact absurd h (by simp [OpenAIClient.attempt_complete])
    | some c =>
      by_cases hce : c = ""
      · subst hce
        exact absurd h (by simp [OpenAIClient.attempt_complete])
      · cases usage with
        | none =>
          simp only [OpenAIClient.attempt_complete, if_neg hce, Except.ok.injEq] at h
          subst h
          exact ⟨openai_cost_nonneg _ _ _, fun _ => rfl, fun u hu => by simp at hu⟩
        | some u =>
          simp only [OpenAIClient.attempt_complete, if_neg hce, Except.ok.injEq] at h
          subst h
          refine ⟨openai_cost_nonneg _ _ _, fun hn => by simp at hn, ?_⟩
          intro u2 hu
          simp only [Option.some.injEq] at hu
          subst hu
          exact ⟨rfl, rfl, rfl⟩
  · intro s req resp r h
    obtain ⟨content, usage⟩ := resp
    by_cases hce : AnthropicClient.concatBlocks content = ""
    · exact absurd h (by simp [AnthropicClient.attempt_complete, hce])
    · cases usage with
      | none =>
        simp only [AnthropicClient.attempt_complete, if_neg hce, Except.ok.injEq] at h
        subst h
        exact ⟨rfl, anthropic_cost_nonneg _ _ _⟩
      | some u =>
        simp only [AnthropicClient.attempt_complete, if_neg hce, Except.ok.injEq] at h
        subst h
        exact ⟨rfl, anthropic_cost_nonneg _ _ _⟩

/-- C1 witness: the amended theorem at a concrete successful OpenAI call
with no usage object. -/
theorem c1_total_tokens_cost_witness :
    0 ≤ (CompletionResponse.mk "hi" "gpt-4o-mini" 0 0 0
          (OpenAIClient.calculate_cost "gpt-4o-mini" 0 0) "openai").cost ∧
    (CompletionResponse.mk "hi" "gpt-4o-mini" 0 0 0
      (OpenAIClient.calculate_cost "gpt-4o-mini" 0 0) "openai").total_tokens =
    (CompletionResponse.mk "hi" "gpt-4o-mini" 0 0 0
      (OpenAIClient.calculate_cost "gpt-4o-mini" 0 0) "openai").input_tokens +
    (CompletionResponse.mk "hi" "gpt-4o-mini" 0 0 0
      (OpenAIClient.calculate_cost "gpt-4o-mini" 0 0) "openai").output_tokens := by
  have h := c1_total_tokens_cost.1 defaultSettings { messages := [] }
    { content := some "hi", usage := none }
    (CompletionResponse.mk "hi" "gpt-4o-mini" 0 0 0
      (OpenAIClient.calculate_cost "gpt-4o-mini" 0 0) "openai") rfl
  exact ⟨h.1, h.2.1 rfl⟩

/-! ## C2 -/

/-- C2 counterexample: `AnthropicClient.is_reasoning_model` returns `false`
on `"o1-mini"` although the lowercased identifier contains the
reasoning-family prefix `"o1-"` (the OpenAI adapter returns `true` on the
same identifier), so detection is not "true exactly when the identifier
contains a reasoning-family prefix" for both adapters. -/
theorem c2_reasoning_detection_counterexample :
    strContains (pyLower "o1-mini") "o1-" = true ∧
    AnthropicClient.is_reasoning_model "o1-mini" = false ∧
    OpenAIClient.is_reasoning_model "o1-mini" = true :=
  ⟨rfl, rfl, rfl⟩

/-- C2 amended: the OpenAI adapter's detection is true exactly when the
lowercased identifier contains `"o1-"`, `"o3-"` or `"gpt-5"`; the Anthropic
adapter's detection is constantly false; when detection is true for the
resolved model the OpenAI parameter set has no `temperature` and carries
the budget under `max_completion_tokens`, and when it is false it carries
`max_tokens` and a `temperature`. -/
theorem c2_reasoning_parameter_branch :
    (∀ m : String, OpenAIClient.is_reasoning_model m = true ↔
      (strContains (pyLower m) "o1-" = true ∨ strContains (pyLower m) "o3-" = true ∨
       strContains (pyLower m) "gpt-5" = true)) ∧
    (∀ m : String, AnthropicClient.is_reasoning_model m = false) ∧
    (∀ (s : Settings) (req : CompletionRequest),
      OpenAIClient.is_reasoning_model (OpenAIClient.resolveModel s req) = true →
      (OpenAIClient.build_api_params s req).temperature = none ∧
      (OpenAIClient.build_api_params s req).max_tokens = none ∧
      (OpenAIClient.build_api_params s req).max_completion_tokens =
        some (pyOrNat req.max_tokens 2000)) ∧
    (∀ (s : Settings) (req : CompletionRequest),
      OpenAIClient.is_reasoning_model (OpenAIClient.resolveModel s req) = false →
      (OpenAIClient.build_api_params s req).max_completion_tokens = none ∧
      (OpenAIClient.build_api_params s req).max_tokens =
        some (pyOrNat req.max_tokens s.defaultMaxTokens) ∧
      (OpenAIClient.build_api_params s req).temperature =
        some (pyOrRat req.temperature s.defaultTemperature)) := by
  refine ⟨?_, ?_, ?_, ?_⟩
  · intro m
    simp [OpenAIClient.is_reasoning_model, OpenAIClient.reasoningKeywords]
  · intro m
    rfl
  · intro s req h
    unfold OpenAIClient.build_api_params
    rw [if_pos h]
    exact ⟨rfl, rfl, rfl⟩
  · intro s req h
    unfold OpenAIClient.build_api_params
    rw [if_neg (by simp [h])]
    exact ⟨rfl, rfl, rfl⟩

/-- C2 witness: the amended theorem at the concrete reasoning model
`"o1-mini"` and the concrete standard model `"gpt-4o-mini"`. -/
theorem c2_reasoning_parameter_branch_witness :
    (OpenAIClient.build_api_params defaultSettings
      { messages := [], model := some "o1-mini" }).temperature = none ∧
    (OpenAIClient.build_api_params defaultSettings
      { messages := [] }).temperature = some defaultSettings.defaultTemperature := by
  constructor
  · exact (c2_reasoning_parameter_branch.2.2.1 defaultSettings
      { messages := [], model := some "o1-mini" } rfl).1
  · exact (c2_reasoning_parameter_branch.2.2.2 defaultSettings
      { messages := [] } rfl).2.2

/-! ## C9 -/

/-- C9: the OpenAI cost tier is the first cost-table key, in insertion
order, contained in the lowercased model name; `"gpt-4o-mini"` therefore
matches the `"gpt-4o"` tier (2.50 input / 10.00 output per million tokens)
even though the table lists distinct `"gpt-4o-mini"` rates at index 1, and
a model matching no key costs 0. -/
theorem c9_cost_tier_first_match :
    OpenAIClient.costs.find? (fun kv => strContains (pyLower "gpt-4o-mini") kv.1) =
      some ("gpt-4o", 2.50, 10.00) ∧
    (∀ i o : Nat, OpenAIClient.calculate_cost "gpt-4o-mini" i o =
      (i : ℚ) / 1000000 * 2.50 + (o : ℚ) / 1000000 * 10.00) ∧
    OpenAIClient.costs.get? 1 = some ("gpt-4o-mini", 0.150, 0.600) ∧
    OpenAIClient.calculate_cost "gpt-4o-mini" 1000000 1000000 = 12.5 ∧
    (∀ (model : String) (i o : Nat),
      (∀ kv ∈ OpenAIClient.costs, strContains (pyLower model) kv.1 = false) →
      OpenAIClient.calculate_cost model i o = 0) := by
  refine ⟨rfl, ?_, rfl, ?_, ?_⟩
  · intro i o
    exact openai_calculate_cost_eq "gpt-4o-mini" ("gpt-4o", 2.50, 10.00) i o rfl
  · rw [openai_calculate_cost_eq "gpt-4o-mini" ("gpt-4o", 2.50, 10.00) 1000000 1000000 rfl]
    norm_num
  · intro model i o h
    unfold OpenAIClient.calculate_cost
    rw [List.find?_eq_none.mpr (by intro kv hkv; simp [h kv hkv])]

/-- C9 witness: a model matching no table key costs 0. -/
theorem c9_cost_tier_first_match_witness :
    OpenAIClient.calculate_cost "mistral-large" 5 7 = 0 :=
  c9_cost_tier_first_match.2.2.2.2 "mistral-large" 5 7 (by
    intro kv hkv
    fin_cases hkv <;> rfl)

/-! ## C4 -/

/-- C4 counterexample: an empty provider text on the first (non-final)
attempt is not retried — the `ValueError` falls into the generic
`except Exception` arm and is re-raised immediately, with no backoff sleep,
even though the next attempt would have produced non-empty content. -/
theorem c4_empty_not_retried_counterexample :
    OpenAIClient.complete defaultSettings { messages := [] }
      (fun i => if i = 0 then .success { content := some "", usage := none }
                else .success { content := some "good stuff", usage := none }) =
      (.error "Empty response from OpenAI", []) :=
  rfl

/-- C4 amended: a `None` or empty (`""`) provider text makes the adapter
raise immediately with no retry and no backoff sleep, regardless of later
outcomes; a whitespace-only but non-empty text is *returned as a success*
whose content strips to the empty string; the same holds for the Anthropic
adapter with its concatenated block text. Only `RateLimitError` and
`APIConnectionError` reach the backoff-retry arm. -/
theorem c4_blank_content_behavior :
    (∀ (s : Settings) (req : CompletionRequest) (outcomes : Nat → OpenAIClient.CallOutcome)
        (resp : OpenAIClient.RawResponse),
      0 < s.maxRetries → outcomes 0 = .success resp →
      (resp.content = none ∨ resp.content = some "") →
      OpenAIClient.complete s req outcomes = (.error "Empty response from OpenAI", [])) ∧
    (∀ (s : Settings) (req : CompletionRequest) (outcomes : Nat → OpenAIClient.CallOutcome)
        (resp : OpenAIClient.RawResponse) (c : String),
      0 < s.maxRetries → outcomes 0 = .success resp → resp.content = some c → c ≠ "" →
      pyStrip c = "" →
      OpenAIClient.complete s req outcomes =
        (.ok { content := ""
               model := OpenAIClient.resolveModel s req
               input_tokens := 0
               output_tokens := 0
               total_tokens := 0
               cost := OpenAIClient.calculate_cost (OpenAIClient.resolveModel s req) 0 0
               provider := "openai" }, []) ∨
      ∃ u, resp.usage = some u ∧
        OpenAIClient.complete s req outcomes =
          (.ok { content := ""
                 model := OpenAIClient.resolveModel s req
                 input_tokens := u.prompt_tokens
                 output_tokens := u.completion_tokens
                 total_tokens := u.total_tokens
                 cost := OpenAIClient.calculate_cost (OpenAIClient.resolveModel s req)
                   u.prompt_tokens u.completion_tokens
                 provider := "openai" }, [])) ∧
    (∀ (s : Settings) (req : CompletionRequest) (outcomes : Nat → AnthropicClient.CallOutcome)
        (resp : AnthropicClient.RawResponse),
      0 < s.maxRetries → outcomes 0 = .success resp →
      AnthropicClient.concatBlocks resp.content = "" →
      AnthropicClient.complete s req outcomes = (.error "Empty response from Anthropic", [])) := by
  refine ⟨?_, ?_, ?_⟩
  · intro s req outcomes resp hmr h0 hblank
    obtain ⟨fuel, hfuel⟩ : ∃ fuel, s.maxRetries = fuel + 1 :=
      ⟨s.maxRetries - 1, by omega⟩
    unfold OpenAIClient.complete
    rw [hfuel]
    unfold OpenAIClient.completeAux
    rw [h0]
    obtain ⟨content, usage⟩ := resp
    rcases hblank with hb | hb <;>
      simp only at hb <;> subst hb <;>
      simp [OpenAIClient.attempt_complete]
  · intro s req outcomes resp c hmr h0 hc hne hstrip
    obtain ⟨fuel, hfuel⟩ : ∃ fuel, s.maxRetries = fuel + 1 :=
      ⟨s.maxRetries - 1, by omega⟩
    obtain ⟨content, usage⟩ := resp
    simp only at hc
    subst hc
    cases usage with
    | none =>
      left
      unfold OpenAIClient.complete
      rw [hfuel]
      unfold OpenAIClient.completeAux
      rw [h0]
      simp [OpenAIClient.attempt_complete, if_neg hne, hstrip]
    | some u =>
      right
      refine ⟨u, rfl, ?_⟩
      unfold OpenAIClient.complete
      rw [hfuel]
      unfold OpenAIClient.completeAux
      rw [h0]
      simp [OpenAIClient.attempt_complete, if_neg hne, hstrip]
  · intro s req outcomes resp hmr h0 hblank
    obtain ⟨fuel, hfuel⟩ : ∃ fuel, s.maxRetries = fuel + 1 :=
      ⟨s.maxRetries - 1, by omega⟩
    unfold AnthropicClient.complete
    rw [hfuel]
    unfold AnthropicClient.completeAux
    rw [h0]
    simp [AnthropicClient.attempt_complete, hblank]

/-- C4 witness: the amended theorem applied to concrete runs — an empty
OpenAI text, a whitespace-only OpenAI text, and an Anthropic response with
no text blocks. -/
theorem c4_blank_content_behavior_witness :
    OpenAIClient.complete defaultSettings { messages := [] }
      (fun _ => .success { content := some "", usage := none }) =
      (.error "Empty response from OpenAI", []) ∧
    (OpenAIClient.complete defaultSettings { messages := [] }
      (fun _ => .success { content := some " ", usage := none }) =
      (.ok { content := ""
             model := OpenAIClient.resolveModel defaultSettings { messages := [] }
             input_tokens := 0
             output_tokens := 0
             total_tokens := 0
             cost := OpenAIClient.calculate_cost
               (OpenAIClient.resolveModel defaultSettings { messages := [] }) 0 0
             provider := "openai" }, []) ∨
      ∃ u, (none : Option OpenAIClient.Usage) = some u ∧
        OpenAIClient.complete defaultSettings { messages := [] }
          (fun _ => .success { content := some " ", usage := none }) =
          (.ok { content := ""
                 model := OpenAIClient.resolveModel defaultSettings { messages := [] }
                 input_tokens := u.prompt_tokens
                 output_tokens := u.completion_tokens
                 total_tokens := u.total_tokens
                 cost := OpenAIClient.calculate_cost
                   (OpenAIClient.resolveModel defaultSettings { messages := [] })
                   u.prompt_tokens u.completion_tokens
                 provider := "openai" }, [])) ∧
    AnthropicClient.complete defaultSettings { messages := [] }
      (fun _ => .success { content := [], usage := none }) =
      (.error "Empty response from Anthropic", []) := by
  refine ⟨?_, ?_, ?_⟩
  · exact c4_blank_content_behavior.1 defaultSettings { messages := [] }
      (fun _ => .success { content := some "", usage := none })
      { content := some "", usage := none } (by decide) rfl (Or.inr rfl)
  · exact c4_blank_content_behavior.2.1 defaultSettings { messages := [] }
      (fun _ => .success { content := some " ", usage := none })
      { content := some " ", usage := none } " " (by decide) rfl rfl (by decide) rfl
  · exact c4_blank_content_behavior.2.2 defaultSettings { messages := [] }
      (fun _ => .success { content := [], usage := none })
      { content := [], usage := none } (by decide) rfl rfl

/-! ## Generator loop lemmas -/

theorem genLoop_all_falsy (s : Settings) (topic : String) (results : Nat → Option String)
    (total : Nat) :
    ∀ (fuel attempt : Nat), attempt + fuel = total + 1 →
    (∀ i, attempt ≤ i → i ≤ total → Generator.truthy (results i) = false) →
    Generator.genLoop s topic results total attempt fuel =
      { outcome := .error ("All model attempts failed for topic: " ++ topic)
        sleeps := (List.range' attempt (fuel - 1)).map (Generator.backoff s) } := by
  intro fuel
  induction fuel with
  | zero =>
    intro attempt htot hfal
    rfl
  | succ fuel ih =>
    intro attempt htot hfal
    have hak : attempt ≤ total := by omega
    have hfa := hfal attempt le_rfl hak
    unfold Generator.genLoop
    cases hres : results attempt with
    | some c =>
      have hc : c = "" := by
        simp [Generator.truthy, hres] at hfa
        exact hfa
      subst hc
      simp only [ne_eq, not_true_eq_false, if_false]
      cases fuel with
      | zero =>
        have : ¬ attempt < total := by omega
        simp only [if_neg this]
        rfl
      | succ fuel2 =>
        have hlt : attempt < total := by omega
        simp only [if_pos hlt]
        rw [ih (attempt + 1) (by omega) (fun i h1 h2 => hfal i (by omega) h2)]
        simp only [Nat.add_sub_cancel, Nat.succ_sub_one]
        rw [List.range'_succ]
        simp
    | none =>
      cases fuel with
      | zero =>
        have : ¬ attempt < total := by omega
        simp only [if_neg this]
        rfl
      | succ fuel2 =>
        have hlt : attempt < total := by omega
        simp only [if_pos hlt]
        rw [ih (attempt + 1) (by omega) (fun i h1 h2 => hfal i (by omega) h2)]
        simp only [Nat.add_sub_cancel, Nat.succ_sub_one]
        rw [List.range'_succ]
        simp

theorem genLoop_first_truthy (s : Settings) (topic : String) (results : Nat → Option String)
    (total : Nat) :
    ∀ (fuel attempt k : Nat) (c : String), attempt + fuel = total + 1 →
    attempt ≤ k → k ≤ total → results k = some c → c ≠ "" →
    (∀ i, attempt ≤ i → i < k → Generator.truthy (results i) = false) →
    Generator.genLoop s topic results total attempt fuel =
      { outcome := .ok c
        sleeps := (List.range' attempt (k - attempt)).map (Generator.backoff s) } := by
  intro fuel
  induction fuel with
  | zero =>
    intro attempt k c htot hak hkt hres hcne hfal
    omega
  | succ fuel ih =>
    intro attempt k c htot hak hkt hres hcne hfal
    unfold Generator.genLoop
    rcases Nat.eq_or_lt_of_le hak with heq | hlt
    · subst heq
      rw [hres]
      simp only [if_pos hcne, Nat.sub_self]
      rfl
    · have hfa := hfal attempt le_rfl hlt
      have hat : attempt < total := by omega
      cases hres2 : results attempt with
      | some c2 =>
        have hc2 : c2 = "" := by
          simp [Generator.truthy, hres2] at hfa
          exact hfa
        subst hc2
        simp only [ne_eq, not_true_eq_false, if_false, if_pos hat]
        rw [ih (attempt + 1) k c (by omega) (by omega) hkt hres hcne
          (fun i h1 h2 => hfal i (by omega) h2)]
        have hk : k - attempt = (k - (attempt + 1)) + 1 := by omega
        rw [hk, List.range'_succ]
        simp
      | none =>
        simp only [if_pos hat]
        rw [ih (attempt + 1) k c (by omega) (by omega) hkt hres hcne
          (fun i h1 h2 => hfal i (by omega) h2)]
        have hk : k - attempt = (k - (attempt + 1)) + 1 := by omega
        rw [hk, List.range'_succ]
        simp

theorem model_sequence_length (s : Settings) :
    (Generator.model_sequence s).length = s.maxRetries + 1 := by
  simp [Generator.model_sequence]

/-! ## C3 -/

/-- C3: in `generate_content`, every failing non-final 1-based attempt `i`
sleeps exactly `min(BACKOFF_MIN * 2^(i-1), BACKOFF_MAX)` before the next
attempt, and no sleep follows a failure of the final sequence entry: when
all `n = MAX_RETRIES + 1` entries fail the sleep trace is the backoff of
attempts `1..n-1`, and when the first success is at attempt `k` it is the
backoff of attempts `1..k-1`. -/
theorem c3_backoff_schedule :
    ∀ (s : Settings) (topic : String) (refined : Except String String)
      (results : Nat → Option String),
      (∀ i : Nat, Generator.backoff s i = min (s.backoffMin * 2 ^ (i - 1)) s.backoffMax) ∧
      ((∀ i, 1 ≤ i → i ≤ s.maxRetries + 1 → Generator.truthy (results i) = false) →
        (Generator.generate_content s topic refined results).2.sleeps =
          (List.range' 1 s.maxRetries).map
            (fun i => min (s.backoffMin * 2 ^ (i - 1)) s.backoffMax)) ∧
      (∀ (k : Nat) (c : String), 1 ≤ k → k ≤ s.maxRetries + 1 →
        results k = some c → c ≠ "" →
        (∀ i, 1 ≤ i → i < k → Generator.truthy (results i) = false) →
        (Generator.generate_content s topic refined results).2.sleeps =
          (List.range' 1 (k - 1)).map
            (fun i => min (s.backoffMin * 2 ^ (i - 1)) s.backoffMax)) := by
  intro s topic refined results
  refine ⟨fun i => rfl, ?_, ?_⟩
  · intro hfal
    unfold Generator.generate_content
    simp only [model_sequence_length]
    rw [genLoop_all_falsy s _ results (s.maxRetries + 1) (s.maxRetries + 1) 1
      (by omega) (fun i h1 h2 => hfal i h1 h2)]
    show (List.range' 1 (s.maxRetries + 1 - 1)).map (Generator.backoff s) = _
    rw [Nat.add_sub_cancel]
    rfl
  · intro k c h1 h2 hres hcne hfal
    unfold Generator.generate_content
    simp only [model_sequence_length]
    rw [genLoop_first_truthy s _ results (s.maxRetries + 1) (s.maxRetries + 1) 1 k c
      (by omega) h1 h2 hres hcne (fun i ha hb => hfal i ha hb)]
    rfl

/-- C3 witness: with the default settings (`BACKOFF_MIN = 1`,
`BACKOFF_MAX = 8`, `MAX_RETRIES = 3`), a run in which every attempt fails
sleeps `[1, 2, 4]`, and a run whose first success is attempt 2 sleeps
`[1]`. -/
theorem c3_backoff_schedule_witness :
    (Generator.generate_content defaultSettings "t" (.error "x") (fun _ => none)).2.sleeps =
      [1, 2, 4] ∧
    (Generator.generate_content defaultSettings "t" (.error "x")
      (fun i => if i = 2 then some "content" else none)).2.sleeps = [1] := by
  constructor
  · rw [(c3_backoff_schedule defaultSettings "t" (.error "x") (fun _ => none)).2.1
      (fun i h1 h2 => rfl)]
    rfl
  · rw [(c3_backoff_schedule defaultSettings "t" (.error "x")
      (fun i => if i = 2 then some "content" else none)).2.2 2 "content"
      (by decide) (by decide) rfl (by decide) ?_]
    · rfl
    · intro i hi1 hi2
      have : i = 1 := by omega
      subst this
      rfl

/-! ## C5 -/

/-- C5: the model sequence is exactly `MAX_RETRIES` primary entries
followed by one fallback entry; if every entry's result is falsy the run
raises the terminal error naming the working topic (which is the raw topic
whenever refinement failed); any entry returning non-empty content
terminates the loop successfully with that content. -/
theorem c5_sequence_fallback_termination :
    ∀ (s : Settings) (topic : String) (refined : Except String String)
      (results : Nat → Option String),
      Generator.model_sequence s = List.replicate s.maxRetries "GPT" ++ ["Claude"] ∧
      (Generator.model_sequence s).length = s.maxRetries + 1 ∧
      ((∀ i, 1 ≤ i → i ≤ s.maxRetries + 1 → Generator.truthy (results i) = false) →
        (Generator.generate_content s topic refined results).2.outcome =
          .error ("All model attempts failed for topic: " ++
            (Generator.generate_content s topic refined results).1)) ∧
      (∀ e, refined = .error e →
        (Generator.generate_content s topic refined results).1 = topic) ∧
      (∀ (k : Nat) (c : String), 1 ≤ k → k ≤ s.maxRetries + 1 →
        results k = some c → c ≠ "" →
        (∀ i, 1 ≤ i → i < k → Generator.truthy (results i) = false) →
        (Generator.generate_content s topic refined results).2.outcome = .ok c) := by
  intro s topic refined results
  refine ⟨rfl, model_sequence_length s, ?_, ?_, ?_⟩
  · intro hfal
    unfold Generator.generate_content
    simp only [model_sequence_length]
    rw [genLoop_all_falsy s _ results (s.maxRetries + 1) (s.maxRetries + 1) 1
      (by omega) (fun i ha hb => hfal i ha hb)]
  · intro e he
    subst he
    rfl
  · intro k c h1 h2 hres hcne hfal
    unfold Generator.generate_content
    simp only [model_sequence_length]
    rw [genLoop_first_truthy s _ results (s.maxRetries + 1) (s.maxRetries + 1) 1 k c
      (by omega) h1 h2 hres hcne (fun i ha hb => hfal i ha hb)]

/-- C5 witness: with default settings, a run whose four attempts all fail
raises the terminal error naming the topic, and a run succeeding at the
fallback attempt returns its content. -/
theorem c5_sequence_fallback_termination_witness :
    (Generator.generate_content defaultSettings "겨울철 싱크대 냄새" (.error "refine down")
      (fun _ => none)).2.outcome =
      .error ("All model attempts failed for topic: " ++ "겨울철 싱크대 냄새") ∧
    (Generator.generate_content defaultSettings "topic" (.ok "refined topic")
      (fun i => if i = 4 then some "article body" else none)).2.outcome =
      .ok "article body" := by
  constructor
  · have h := (c5_sequence_fallback_termination defaultSettings "겨울철 싱크대 냄새"
      (.error "refine down") (fun _ => none))
    rw [h.2.2.1 (fun i h1 h2 => rfl), h.2.2.2.1 "refine down" rfl]
  · exact (c5_sequence_fallback_termination defaultSettings "topic" (.ok "refined topic")
      (fun i => if i = 4 then some "article body" else none)).2.2.2.2 4 "article body"
      (by decide) (by decide) rfl (by decide)
      (fun i hi1 hi2 => by
        interval_cases i <;> rfl)

/-! ## Validator lemmas -/

theorem mem_of_getLast?_eq_some {l : List Char} {x : Char} (h : l.getLast? = some x) :
    x ∈ l := by
  obtain ⟨hne, hx⟩ := List.mem_getLast?_eq_getLast (Option.mem_def.mpr h)
  rw [hx]
  exact List.getLast_mem hne

theorem takeToLastRB_spec :
    ∀ t : List Char, t.contains '\x7d' = true →
    ∃ post, t = Validator.takeToLastRB t ++ post ∧ (∀ x ∈ post, x ≠ '\x7d') ∧
      (Validator.takeToLastRB t).getLast? = some '\x7d' := by
  intro t
  induction t with
  | nil => intro h; simp at h
  | cons c u ih =>
    intro h
    unfold Validator.takeToLastRB
    by_cases hu : u.contains '\x7d'
    · obtain ⟨post, hpost, hnone, hlast⟩ := ih hu
      rw [if_pos hu]
      refine ⟨post, ?_, hnone, ?_⟩
      · rw [List.cons_append, ← hpost]
      · have hne : Validator.takeToLastRB u ≠ [] := by
          intro hnil
          rw [hnil] at hlast
          simp at hlast
        cases htl : Validator.takeToLastRB u with
        | nil => exact absurd htl hne
        | cons y ys =>
          rw [htl] at hlast
          rw [List.getLast?_cons_cons, hlast]
    · rw [if_neg hu]
      have hc : c = '\x7d' := by
        simp at h
        rcases h with h | h
        · exact h.symm
        · exact absurd (by simpa using h) hu
      rw [if_pos hc]
      refine ⟨u, by simp [hc], ?_, by rw [hc]; rfl⟩
      intro x hx hxeq
      subst hxeq
      exact hu (by simpa using hx)

theorem extractSpan_spec :
    ∀ (cs span : List Char), Validator.extractSpan cs = some span →
    ∃ pre post, cs = pre ++ span ++ post ∧ (∀ x ∈ pre, x ≠ '\x7b') ∧
      (∀ x ∈ post, x ≠ '\x7d') ∧ span.head? = some '\x7b' ∧
      span.getLast? = some '\x7d' := by
  intro cs
  induction cs with
  | nil => intro span h; simp [Validator.extractSpan] at h
  | cons c t ih =>
    intro span h
    unfold Validator.extractSpan at h
    by_cases hcond : c = '\x7b' ∧ t.contains '\x7d' = true
    · rw [if_pos (by exact_mod_cast hcond)] at h
      simp only [Option.some.injEq] at h
      subst h
      obtain ⟨post, hpost, hnone, hlast⟩ := takeToLastRB_spec t hcond.2
      refine ⟨[], post, ?_, by simp, hnone, by rw [hcond.1]; rfl, ?_⟩
      · rw [List.nil_append, List.cons_append, ← hpost]
      · have hne : Validator.takeToLastRB t ≠ [] := by
          intro hnil
          rw [hnil] at hlast
          simp at hlast
        cases htl : Validator.takeToLastRB t with
        | nil => exact absurd htl hne
        | cons y ys =>
          rw [htl] at hlast
          rw [List.getLast?_cons_cons, hlast]
    · rw [if_neg (by exact_mod_cast hcond)] at h
      obtain ⟨pre, post, hsplit, hpre, hpost, hhead, hlast⟩ := ih span h
      refine ⟨c :: pre, post, by rw [hsplit]; rfl, ?_, hpost, hhead, hlast⟩
      intro x hx
      rcases List.mem_cons.mp hx with hxc | hxp
      · subst hxc
        intro hxeq
        apply hcond
        refine ⟨hxeq, ?_⟩
        have hmem : '\x7d' ∈ span := mem_of_getLast?_eq_some hlast
        have : '\x7d' ∈ t := by
          rw [hsplit]
          simp [hmem]
        simpa using this
      · exact hpre x hxp

theorem retryPhase_inl (attempts : Nat → Validator.VAttempt) :
    ∀ (fuel attempt : Nat) (d : Validator.VDict),
      Validator.retryPhase attempts attempt fuel = Sum.inl d →
      d = Validator.emptyDegraded ∨ ∃ e, d = Validator.errorDict e := by
  intro fuel
  induction fuel with
  | zero =>
    intro attempt d h
    simp only [Validator.retryPhase, Sum.inl.injEq] at h
    exact Or.inl h.symm
  | succ fuel ih =>
    intro attempt d h
    unfold Validator.retryPhase at h
    cases hat : attempts attempt with
    | ok content =>
      rw [hat] at h
      dsimp only at h
      by_cases hb : Validator.isBlank content = true
      · rw [if_pos hb] at h
        by_cases hlt : attempt < Validator.vMaxRetries - 1
        · rw [if_pos hlt] at h
          exact ih (attempt + 1) d h
        · rw [if_neg hlt] at h
          simp only [Sum.inl.injEq] at h
          exact Or.inl h.symm
      · rw [if_neg hb] at h
        simp at h
    | exn e =>
      rw [hat] at h
      dsimp only at h
      by_cases hlt : attempt < Validator.vMaxRetries - 1
      · rw [if_pos hlt] at h
        exact ih (attempt + 1) d h
      · rw [if_neg hlt] at h
        simp only [Sum.inl.injEq] at h
        exact Or.inr ⟨e, h.symm⟩

theorem parsePhase_ok_shape (p : String → Except String (List (String × JValue)))
    (result : String) :
    ∀ d : Validator.VDict, Validator.parsePhase p result = .ok d →
      (∃ m, d = Validator.parseErrorDict m result) ∨ d.legacy.isSome = true := by
  intro d h
  unfold Validator.parsePhase at h
  cases hspan : Validator.extractSpan result.toList with
  | none =>
    rw [hspan] at h
    simp only [Except.ok.injEq] at h
    exact Or.inl ⟨_, h.symm⟩
  | some span =>
    rw [hspan] at h
    dsimp only at h
    cases hp : p (pyStrip (String.mk span)) with
    | error e =>
      rw [hp] at h
      simp only [Except.ok.injEq] at h
      exact Or.inl ⟨_, h.symm⟩
    | ok obj =>
      rw [hp] at h
      dsimp only at h
      by_cases hkeys : (Validator.requiredKeys.all (fun k => (jlookup obj k).isSome)) = true
      · rw [if_pos hkeys] at h
        cases hit : Validator.pyIter ((jlookup obj "suggestions").getD .jnull) with
        | error e => rw [hit] at h; simp at h
        | ok items =>
          rw [hit] at h
          dsimp only at h
          cases hls : Validator.legacySuggestions items with
          | error e => rw [hls] at h; simp at h
          | ok suggs =>
            rw [hls] at h
            simp only [Except.ok.injEq] at h
            subst h
            exact Or.inr rfl
      · rw [if_neg hkeys] at h
        simp only [Except.ok.injEq] at h
        exact Or.inl ⟨_, h.symm⟩

/-! ## C6 -/

/-- C6 counterexample: on the raw text `"\x7b\x7d \x7b\x7d"` the code's
greedy regex span runs from the first opening brace to the *last* closing
brace (the whole text), which is not the first balanced JSON object
(`"\x7b\x7d"`); the two extractions differ observably. -/
theorem c6_extraction_counterexample :
    Validator.extractSpan ("\x7b\x7d \x7b\x7d".toList) =
      some ("\x7b\x7d \x7b\x7d".toList) ∧
    Validator.firstBalancedJsonObject ("\x7b\x7d \x7b\x7d".toList) =
      some ("\x7b\x7d".toList) ∧
    Validator.extractSpan ("\x7b\x7d \x7b\x7d".toList) ≠
      Validator.firstBalancedJsonObject ("\x7b\x7d \x7b\x7d".toList) :=
  ⟨rfl, rfl, by decide⟩

/-- C6 amended: the extraction takes the span from the first opening brace
(that has a later closing brace) to the last closing brace of the whole
text — not the first balanced object; whenever no such span exists, JSON
parsing of the span fails, or a required key is missing, `validate_content`
returns (never raises) the degraded dict with zeroed scores, `has_faq`
false and exactly one issue of type `parse_error`. -/
theorem c6_greedy_span_degradation :
    (∀ (cs span : List Char), Validator.extractSpan cs = some span →
      ∃ pre post, cs = pre ++ span ++ post ∧ (∀ x ∈ pre, x ≠ '\x7b') ∧
        (∀ x ∈ post, x ≠ '\x7d') ∧ span.head? = some '\x7b' ∧
        span.getLast? = some '\x7d') ∧
    (∀ (p : String → Except String (List (String × JValue))) (result : String),
      (Validator.extractSpan result.toList = none →
        Validator.parsePhase p result =
          .ok (Validator.parseErrorDict "응답 파싱 실패" result)) ∧
      (∀ span, Validator.extractSpan result.toList = some span →
        ∀ e, p (pyStrip (String.mk span)) = .error e →
        Validator.parsePhase p result =
          .ok (Validator.parseErrorDict ("JSON 파싱 실패: " ++ e) result)) ∧
      (∀ span obj, Validator.extractSpan result.toList = some span →
        p (pyStrip (String.mk span)) = .ok obj →
        (Validator.requiredKeys.all (fun k => (jlookup obj k).isSome)) = false →
        Validator.parsePhase p result =
          .ok (Validator.parseErrorDict "응답 구조 오류" result))) ∧
    (∀ m r, (Validator.parseErrorDict m r).scores_grammar = .jnum 0 ∧
      (Validator.parseErrorDict m r).scores_human = .jnum 0 ∧
      (Validator.parseErrorDict m r).scores_seo = .jnum 0 ∧
      (Validator.parseErrorDict m r).has_faq = .jbool false ∧
      (Validator.parseErrorDict m r).issues =
        .jarr [.jobj [("type", .jstr "parse_error"), ("message", .jstr m)]]) ∧
    (∀ (p : String → Except String (List (String × JValue)))
        (attempts : Nat → Validator.VAttempt) (result : String),
      Validator.retryPhase attempts 0 Validator.vMaxRetries = Sum.inr result →
      Validator.validate_content p attempts = Validator.parsePhase p result) := by
  refine ⟨extractSpan_spec, ?_, ?_, ?_⟩
  · intro p result
    refine ⟨?_, ?_, ?_⟩
    · intro hnone
      unfold Validator.parsePhase
      rw [hnone]
    · intro span hspan e hp
      unfold Validator.parsePhase
      rw [hspan]
      dsimp only
      rw [hp]
    · intro span obj hspan hp hkeys
      unfold Validator.parsePhase
      rw [hspan]
      dsimp only
      rw [hp]
      dsimp only
      rw [if_neg (by simp [hkeys])]
  · intro m r
    exact ⟨rfl, rfl, rfl, rfl, rfl⟩
  · intro p attempts result hretry
    unfold Validator.validate_content
    rw [hretry]

/-- C6 witness: the amended theorem's degradation cases at concrete inputs
— a response with no brace span at all, and a braced response on which the
JSON parser (oracle) fails. -/
theorem c6_greedy_span_degradation_witness :
    Validator.parsePhase (fun _ => .error "Expecting value") "no json here" =
      .ok (Validator.parseErrorDict "응답 파싱 실패" "no json here") ∧
    Validator.parsePhase (fun _ => .error "Expecting value") "pre \x7btext\x7d post" =
      .ok (Validator.parseErrorDict ("JSON 파싱 실패: " ++ "Expecting value")
        "pre \x7btext\x7d post") := by
  constructor
  · exact (c6_greedy_span_degradation.2.1 (fun _ => .error "Expecting value")
      "no json here").1 rfl
  · exact (c6_greedy_span_degradation.2.1 (fun _ => .error "Expecting value")
      "pre \x7btext\x7d post").2.1 ("\x7btext\x7d".toList) rfl "Expecting value" rfl

/-! ## C10 -/

/-- C10: when every retry's provider text is empty or whitespace-only,
`validate_content` returns the degraded dict with zeroed scores,
`has_faq = false`, an *empty* issues list, empty raw output, and none of
the legacy flat fields; every other return path differs (it carries a
non-empty issues list or the legacy flat fields). -/
theorem c10_blank_every_retry :
    (∀ (p : String → Except String (List (String × JValue)))
        (attempts : Nat → Validator.VAttempt),
      (∀ i, i < Validator.vMaxRetries →
        ∃ c, attempts i = .ok c ∧ Validator.isBlank c = true) →
      Validator.validate_content p attempts = .ok Validator.emptyDegraded) ∧
    (Validator.emptyDegraded.issues = .jarr [] ∧
     Validator.emptyDegraded.legacy = none ∧
     Validator.emptyDegraded.error = none ∧
     Validator.emptyDegraded.raw_output = some "" ∧
     Validator.emptyDegraded.scores_grammar = .jnum 0 ∧
     Validator.emptyDegraded.scores_human = .jnum 0 ∧
     Validator.emptyDegraded.scores_seo = .jnum 0 ∧
     Validator.emptyDegraded.has_faq = .jbool false) ∧
    (∀ (p : String → Except String (List (String × JValue)))
        (attempts : Nat → Validator.VAttempt) (d : Validator.VDict),
      Validator.validate_content p attempts = .ok d →
      d.issues = .jarr [] → d.legacy = none → d = Validator.emptyDegraded) := by
  refine ⟨?_, ⟨rfl, rfl, rfl, rfl, rfl, rfl, rfl, rfl⟩, ?_⟩
  · intro p attempts h
    obtain ⟨c0, h0, hb0⟩ := h 0 (by decide)
    obtain ⟨c1, h1, hb1⟩ := h 1 (by decide)
    obtain ⟨c2, h2, hb2⟩ := h 2 (by decide)
    unfold Validator.validate_content
    have hr : Validator.retryPhase attempts 0 Validator.vMaxRetries =
        Sum.inl Validator.emptyDegraded := by
      show Validator.retryPhase attempts 0 3 = Sum.inl Validator.emptyDegraded
      unfold Validator.retryPhase
      rw [h0]
      dsimp only
      rw [if_pos hb0, if_pos (by decide : (0:Nat) < Validator.vMaxRetries - 1)]
      unfold Validator.retryPhase
      rw [h1]
      dsimp only
      rw [if_pos hb1, if_pos (by decide : (1:Nat) < Validator.vMaxRetries - 1)]
      unfold Validator.retryPhase
      rw [h2]
      dsimp only
      rw [if_pos hb2, if_neg (by decide : ¬ (2:Nat) < Validator.vMaxRetries - 1)]
    rw [hr]
  · intro p attempts d h hissues hlegacy
    unfold Validator.validate_content at h
    cases hr : Validator.retryPhase attempts 0 Validator.vMaxRetries with
    | inl d2 =>
      rw [hr] at h
      simp only [Except.ok.injEq] at h
      subst h
      rcases retryPhase_inl attempts Validator.vMaxRetries 0 _ hr with he | ⟨e, he⟩
      · exact he
      · rw [he] at hissues
        simp [Validator.errorDict] at hissues
    | inr result =>
      rw [hr] at h
      rcases parsePhase_ok_shape p result _ h with ⟨m, hm⟩ | hleg
      · rw [hm] at hissues
        simp [Validator.parseErrorDict] at hissues
      · rw [hlegacy] at hleg
        simp at hleg

/-- C10 witness: a run whose three attempts all return whitespace-only
text yields exactly the empty-degraded dict. -/
theorem c10_blank_every_retry_witness :
    Validator.validate_content (fun _ => .error "never called")
      (fun _ => .ok (some " ")) = .ok Validator.emptyDegraded :=
  c10_blank_every_retry.1 (fun _ => .error "never called") (fun _ => .ok (some " "))
    (fun _ _ => ⟨some " ", rfl, rfl⟩)

/-! ## C7 -/

/-- C7 counterexample: a report with `has_faq = true` and all three scores
9 but a typed issue (`ai_tone`) in its issues list does not short-circuit —
the provider call is issued and its rewritten text is returned, so
`fixed_content` differs from the input content. -/
theorem c7_no_fix_needed_counterexample :
    (Fixer.fix_content "원본"
      { issues := [.jobj [("type", .jstr "ai_tone"), ("message", .jstr "m")]]
        has_faq := true
        scores := some { grammar := some 9, human := some 9, seo := some 9 }
        grammar_score := some 9, human_score := some 9, seo_score := some 9 }
      "" (.ok (some "대체 텍스트"))).fixed_content = "대체 텍스트" ∧
    (Fixer.fix_content "원본"
      { issues := [.jobj [("type", .jstr "ai_tone"), ("message", .jstr "m")]]
        has_faq := true
        scores := some { grammar := some 9, human := some 9, seo := some 9 }
        grammar_score := some 9, human_score := some 9, seo_score := some 9 }
      "" (.ok (some "대체 텍스트"))).provider_called = true ∧
    "대체 텍스트" ≠ "원본" :=
  ⟨rfl, rfl, by decide⟩

/-- C7 amended: the short-circuit fires exactly when the derived fix-needs
list is empty and the flat `grammar_score` field (default 0) is at least 8;
when it fires the input content is returned unchanged with the "no fix
needed" summary and no provider call; and the fix-needs list is empty
whenever `has_faq` is true, the issues list carries no typed entries, and
all three effective scores are at least 7. -/
theorem c7_no_fix_needed_short_circuit :
    (∀ (content : String) (r : Fixer.VReport) (focus : String)
        (provider : Fixer.FixOutcome),
      Fixer.extract_fix_needs r = [] → (8:Int) ≤ r.grammar_score.getD 0 →
      Fixer.fix_content content r focus provider =
        { fixed_content := content
          fix_summary := ["콘텐츠 품질이 우수하여 수정 불필요"]
          added_FAQ := r.has_faq
          keyword_density := Fixer.calculate_keyword_density content focus
          provider_called := false }) ∧
    (∀ (content : String) (r : Fixer.VReport) (focus : String)
        (provider : Fixer.FixOutcome),
      ¬ (Fixer.extract_fix_needs r = [] ∧ (8:Int) ≤ r.grammar_score.getD 0) →
      (Fixer.fix_content content r focus provider).provider_called = true) ∧
    (∀ r : Fixer.VReport, r.has_faq = true →
      (∀ i ∈ r.issues, Fixer.issue_type i = none) →
      (7:Int) ≤ Fixer.effGrammar r → (7:Int) ≤ Fixer.effHuman r →
      (7:Int) ≤ Fixer.effSeo r →
      Fixer.extract_fix_needs r = []) := by
  refine ⟨?_, ?_, ?_⟩
  · intro content r focus provider h1 h2
    unfold Fixer.fix_content
    dsimp only
    rw [if_pos ⟨List.isEmpty_iff.mpr h1, h2⟩]
  · intro content r focus provider hn
    unfold Fixer.fix_content
    dsimp only
    rw [if_neg (fun hcond => hn ⟨List.isEmpty_iff.mp hcond.1, hcond.2⟩)]
    cases provider with
    | exn e => rfl
    | ok c =>
      cases c with
      | none => rfl
      | some raw =>
        dsimp only
        split
        · rfl
        · rfl
  · intro r hfaq hiss hg hh hs
    have hg7 : ¬ (Fixer.effGrammar r < 7) := by omega
    have hh7 : ¬ (Fixer.effHuman r < 7) := by omega
    have hs7 : ¬ (Fixer.effSeo r < 7) := by omega
    unfold Fixer.extract_fix_needs
    simp [List.filterMap_eq_nil_iff.mpr hiss, hfaq, hg7, hh7, hs7]

/-- C7 witness: the short-circuit at a concrete report (`has_faq = true`,
flat grammar score 9, no issues) returns the input unchanged without a
provider call even though the provider oracle would fail. -/
theorem c7_no_fix_needed_short_circuit_witness :
    Fixer.fix_content "본문" { has_faq := true, grammar_score := some 9 } ""
      (.exn "provider down") =
      { fixed_content := "본문"
        fix_summary := ["콘텐츠 품질이 우수하여 수정 불필요"]
        added_FAQ := true
        keyword_density := Fixer.calculate_keyword_density "본문" ""
        provider_called := false } :=
  c7_no_fix_needed_short_circuit.1 "본문" { has_faq := true, grammar_score := some 9 }
    "" (.exn "provider down") rfl (by decide)

/-! ## C8 -/

set_option maxRecDepth 400000 in
/-- C8: `calculate_keyword_density` equals the spec formula — the
case-insensitive occurrence count of the focus phrase in the text obtained
by stripping fenced code blocks and markdown punctuation, divided by that
text's word count, times 100, rounded to two decimals — and on concrete
scenario D (a 2-word focus phrase occurring exactly twice among 100 words
after stripping) it yields exactly 2.00. -/
theorem c8_keyword_density :
    (∀ content keyphrase : String, keyphrase ≠ "" → content ≠ "" →
      (Fixer.pyWords (String.mk (Fixer.stripMd
        (Fixer.stripCodeBlocks content.toList)))).length ≠ 0 →
      Fixer.calculate_keyword_density content keyphrase =
        Fixer.keywordDensitySpec content keyphrase) ∧
    (Fixer.pyWords (String.mk (Fixer.stripMd
      (Fixer.stripCodeBlocks Fixer.densityDemo.toList)))).length = 100 ∧
    Fixer.countSub ((pyLower "Data Science").data)
      ((Fixer.stripMd (Fixer.stripCodeBlocks Fixer.densityDemo.toList)).map
        Char.toLower) = 2 ∧
    Fixer.calculate_keyword_density Fixer.densityDemo "Data Science" = 2 := by
  have hcnt : Fixer.countSub ((pyLower "Data Science").data)
      ((Fixer.stripMd (Fixer.stripCodeBlocks Fixer.densityDemo.toList)).map
        Char.toLower) = 2 := by
    decide
  have htot : (Fixer.pyWords (String.mk (Fixer.stripMd
      (Fixer.stripCodeBlocks Fixer.densityDemo.toList)))).length = 100 := by
    decide
  refine ⟨?_, htot, hcnt, ?_⟩
  · intro content keyphrase hk hc hw
    unfold Fixer.calculate_keyword_density Fixer.keywordDensitySpec
    rw [if_neg (by simp [hk, hc])]
    dsimp only
    rw [if_neg hw]
  · unfold Fixer.calculate_keyword_density
    rw [if_neg (by decide)]
    dsimp only
    rw [if_neg (by rw [htot]; decide)]
    rw [hcnt, htot]
    norm_num [Fixer.round2, Fixer.roundHalfEven]

set_option maxRecDepth 400000 in
/-- C8 witness: the refinement equality instantiated on the concrete
scenario-D content and focus phrase. -/
theorem c8_keyword_density_witness :
    Fixer.calculate_keyword_density Fixer.densityDemo "Data Science" =
      Fixer.keywordDensitySpec Fixer.densityDemo "Data Science" :=
  c8_keyword_density.1 Fixer.densityDemo "Data Science" (by decide) (by decide)
    (by decide)
